import Mathlib

/-!
Verification of the telemetry-to-visualization pipeline of the dji-logbook
repository against its specification.

The TypeScript source is shallowly embedded: JavaScript numbers are modelled
as exact rationals (for the computable chart-range, path-geometry and
zoom-synchronization code) or as real numbers (for the trigonometric
great-circle code).  JavaScript `null` / `undefined` / non-finite values are
modelled explicitly where the source distinguishes them.
-/

/- ===== JavaScript values flowing into computeRange =====
`computeRange` (src/unnamed/part_004, lines 1292-1331) receives
`Array<number | null | undefined>`; a JavaScript number is either a finite
value, `NaN`, or a signed infinity. -/

/-- A JavaScript value as seen by `computeRange`: a finite number, `NaN`,
a signed infinity, `null`, or `undefined`. -/
inductive JSValue where
  | num (val : ℚ)
  | nan
  | posInf
  | negInf
  | null
  | undef
deriving DecidableEq

/-- Embeds the test `typeof value === 'number'`: true for finite numbers,
`NaN` and the infinities. -/
def jsTypeofNumber : JSValue → Bool
  | .num _ => true
  | .nan => true
  | .posInf => true
  | .negInf => true
  | _ => false

/-- Embeds `Number.isFinite(value)`: true only for finite numbers. -/
def jsIsFiniteNum : JSValue → Bool
  | .num _ => true
  | _ => false

/-- Embeds `Math.abs`. -/
def jsAbs (q : ℚ) : ℚ := if q < 0 then -q else q

/-- Embeds the binary `Math.min` on finite numbers. -/
def jsMin (a b : ℚ) : ℚ := if a ≤ b then a else b

/-- Embeds the binary `Math.max` on finite numbers. -/
def jsMax (a b : ℚ) : ℚ := if b ≤ a then a else b

/-- The numeric payload of a finite JavaScript number. -/
def finitePart : JSValue → Option ℚ
  | .num val => some val
  | _ => none

/-- Embeds the filter in `computeRange`:
`values.filter((value): value is number => typeof value === 'number' && Number.isFinite(value))`,
keeping the numeric payloads of the surviving elements. -/
def cleanValues (values : List JSValue) : List ℚ :=
  values.filterMap fun v =>
    if jsTypeofNumber v && jsIsFiniteNum v then finitePart v else none

/-- The options record of `computeRange`:
`{ clampMin?: number; clampMax?: number; paddingRatio?: number }`.
(The last field is named `paddingRatioOpt` here; it models `options.paddingRatio`.) -/
structure RangeOptions where
  clampMin : Option ℚ
  clampMax : Option ℚ
  paddingRatioOpt : Option ℚ
deriving DecidableEq

/-- The default options value `{}` of `computeRange`. -/
def noOptions : RangeOptions := ⟨none, none, none⟩

/-- The return shape of `computeRange`: `{ min?: number; max?: number }`. -/
structure DisplayRange where
  min : Option ℚ
  max : Option ℚ
deriving DecidableEq

/-- Embeds `Number(value.toFixed(decimals))` on an exact rational: per the
ECMAScript definition of `toFixed`, the integer `n` minimizing
`|n / 10^d - x|` is chosen, the larger `n` on ties, i.e. `⌊x·10^d + 1/2⌋`. -/
def jsToFixed (decimals : ℕ) (value : ℚ) : ℚ :=
  (⌊value * 10 ^ decimals + 1 / 2⌋ : ℚ) / 10 ^ decimals

/-- Embeds `roundAxisValue` (src/unnamed/part_004, lines 1333-1338):
values within 1e-4 of zero become 0; otherwise round to 0 decimals for
magnitudes at least 100, 1 decimal for at least 10, else 2 decimals. -/
def roundAxisValue (value : ℚ) : ℚ :=
  if jsAbs value < 1 / 10000 then 0
  else
    let abs := jsAbs value
    let decimals : ℕ := if 100 ≤ abs then 0 else if 10 ≤ abs then 1 else 2
    jsToFixed decimals value

/-- Embeds the degenerate-range widening step of `computeRange`:
`if (min === max) { const delta = min === 0 ? 1 : Math.abs(min) * 0.1; min -= delta; max += delta; }`. -/
def widenIfFlat (mn mx : ℚ) : ℚ × ℚ :=
  if mn = mx then
    let delta := if mn = 0 then 1 else jsAbs mn * (1 / 10)
    (mn - delta, mx + delta)
  else (mn, mx)

/-- Embeds the padding step of `computeRange`:
`const paddingRatio = options.paddingRatio ?? 0.08; const padding = (max - min) * paddingRatio;`
then `min -= padding; max += padding;`. -/
def applyPadding (ratioOpt : Option ℚ) (b : ℚ × ℚ) : ℚ × ℚ :=
  let pr := ratioOpt.getD (8 / 100)
  let padding := (b.2 - b.1) * pr
  (b.1 - padding, b.2 + padding)

/-- Embeds the clamp step of `computeRange`:
`if (typeof options.clampMin === 'number') min = Math.max(min, options.clampMin);`
and symmetrically for `clampMax`. -/
def applyClamps (opts : RangeOptions) (b : ℚ × ℚ) : ℚ × ℚ :=
  let mn := match opts.clampMin with
    | some c => jsMax b.1 c
    | none => b.1
  let mx := match opts.clampMax with
    | some c => jsMin b.2 c
    | none => b.2
  (mn, mx)

/-- Embeds the final rounding and re-widening steps of `computeRange`:
round both bounds with `roundAxisValue`; if they collapsed to the same value,
bump by `min === 0 ? 1 : Math.abs(min) * 0.1` and re-round. -/
def finalizeRange (b : ℚ × ℚ) : DisplayRange :=
  let mn := roundAxisValue b.1
  let mx := roundAxisValue b.2
  if mn = mx then
    let bump := if mn = 0 then 1 else jsAbs mn * (1 / 10)
    ⟨some (roundAxisValue (mn - bump)), some (roundAxisValue (mx + bump))⟩
  else ⟨some mn, some mx⟩

/-- Embeds `Math.min(...cleaned)` and `Math.max(...cleaned)`; `none` when the
cleaned list is empty (where the source returns `{}` before reaching them). -/
def rawBounds : List ℚ → Option (ℚ × ℚ)
  | [] => none
  | c :: cs => some (cs.foldl jsMin c, cs.foldl jsMax c)

/-- The bounds of `computeRange` after cleaning, flat-widening, padding and
clamping, immediately before the rounding step (lines 1296-1322 of the source). -/
def rangeAfterClamp (values : List JSValue) (opts : RangeOptions) : Option (ℚ × ℚ) :=
  (rawBounds (cleanValues values)).map fun b =>
    applyClamps opts (applyPadding opts.paddingRatioOpt (widenIfFlat b.1 b.2))

/-- Embeds `computeRange` (src/unnamed/part_004, lines 1292-1331), as the
composition of its straight-line pipeline stages: clean, take min/max, widen a
flat range, pad, clamp, round, re-widen on collapse. An empty cleaned list
returns `{}`. -/
def computeRange (values : List JSValue) (opts : RangeOptions) : DisplayRange :=
  match rangeAfterClamp values opts with
  | none => ⟨none, none⟩
  | some b => finalizeRange b

/- ===== Track geometry (deckPathData) =====
`deckPathData` (src/src/components/map/FlightMap.tsx, lines 111-138) turns the
GPS track into colored path segments for the deck.gl path layer. -/

/-- A track point `[lng, lat, alt]` from `track: [number, number, number][]`. -/
structure GeoPoint where
  lng : ℚ
  lat : ℚ
  alt : ℚ
deriving DecidableEq

/-- A deck.gl path segment `{ path, color }` as built by `deckPathData`. -/
structure PathSegment where
  path : List GeoPoint
  color : ℤ × ℤ × ℤ
deriving DecidableEq

/-- Embeds JavaScript `Math.round`: round half toward positive infinity. -/
def jsRound (q : ℚ) : ℤ := ⌊q + 1 / 2⌋

/-- The fixed gradient start color `[250, 204, 21]` of `deckPathData`. -/
def gradStart : ℚ × ℚ × ℚ := (250, 204, 21)

/-- The fixed gradient end color `[239, 68, 68]` of `deckPathData`. -/
def gradEnd : ℚ × ℚ × ℚ := (239, 68, 68)

/-- The per-segment color of `deckPathData`:
`[Math.round(startColor[k] + (endColor[k] - startColor[k]) * t)]` componentwise. -/
def interpColor (t : ℚ) : ℤ × ℤ × ℤ :=
  (jsRound (gradStart.1 + (gradEnd.1 - gradStart.1) * t),
   jsRound (gradStart.2.1 + (gradEnd.2.1 - gradStart.2.1) * t),
   jsRound (gradStart.2.2 + (gradEnd.2.2 - gradStart.2.2) * t))

/-- Embeds `const toAlt = (altitude) => (is3D ? altitude : 0)`. -/
def toAlt (is3D : Bool) (altitude : ℚ) : ℚ := if is3D then altitude else 0

/-- The loop body of `deckPathData`: one segment per consecutive pair, with
`t = i / denom` where `i` counts from the given start index and
`denom = Math.max(1, track.length - 2)` is fixed by the caller. -/
def segmentsAux (is3D : Bool) (denom : ℚ) : ℕ → List GeoPoint → List PathSegment
  | _, [] => []
  | _, [_] => []
  | i, p1 :: p2 :: rest =>
    { path := [⟨p1.lng, p1.lat, toAlt is3D p1.alt⟩, ⟨p2.lng, p2.lat, toAlt is3D p2.alt⟩],
      color := interpColor ((i : ℚ) / denom) } :: segmentsAux is3D denom (i + 1) (p2 :: rest)

/-- Embeds `deckPathData` (src/src/components/map/FlightMap.tsx, lines 111-138):
tracks with fewer than 2 points yield no segments; otherwise one colored
segment per consecutive pair, the gradient parameter being
`i / Math.max(1, track.length - 2)`. -/
def deckPathData (is3D : Bool) (track : List GeoPoint) : List PathSegment :=
  if track.length < 2 then []
  else segmentsAux is3D ((max 1 (track.length - 2) : ℕ) : ℚ) 0 track

/- ===== Zoom-window synchronization (syncZoom) =====
`syncZoom` / `registerChart` (src/unnamed/part_004, lines 276-311, and
identically src/src/components/charts/TelemetryCharts.tsx, lines 32-68).
Charts are identified by their position in `chartsRef.current`; the
`includes` guard in `registerChart` keeps the list duplicate-free, so position
equality models the `chart === sourceChart` identity test.  Dispatching a
`dataZoom` action to a chart applies the window to its option state and
synchronously fires its registered `dataZoom` handler, which runs `syncZoom`
on that chart; the recursion is fuelled, and the reentrancy guard makes any
positive fuel sufficient. -/

/-- A zoom window `{ start?, end?, startValue?, endValue? }` as read from
`getOption().dataZoom[0]` (fields named `startPct` / `endPct` here for the
`start` / `end` percentages). -/
structure ZoomWindow where
  startPct : Option ℚ
  endPct : Option ℚ
  startValue : Option ℚ
  endValue : Option ℚ
deriving DecidableEq

/-- One registered chart: its `dataZoom` option array, and the log of zoom
windows it has received via `dispatchAction`. -/
structure ChartHandle where
  dataZoom : List ZoomWindow
  received : List ZoomWindow
deriving DecidableEq

/-- The mutable state of the panel set: the registered charts
(`chartsRef.current`), the reentrancy guard (`isSyncingRef.current`), and a
count of guard-passing rebroadcasts. -/
structure SyncState where
  charts : List ChartHandle
  isSyncing : Bool
  broadcasts : ℕ
deriving DecidableEq

/-- Effect of `chart.dispatchAction({ type: 'dataZoom', start, end, startValue, endValue })`
on the target chart state: the window becomes its current zoom option and is
appended to its received log. -/
def applyDataZoom (w : ZoomWindow) (c : ChartHandle) : ChartHandle :=
  { dataZoom := [w], received := c.received ++ [w] }

/-- Updates the element at an index of a list, if present. -/
def updateAt {α : Type} : ℕ → (α → α) → List α → List α
  | _, _, [] => []
  | 0, f, a :: as => f a :: as
  | n + 1, f, a :: as => a :: updateAt n f as

/-- Embeds `syncZoom(sourceChart)` together with the `dataZoom` handlers
installed by `registerChart`: if the guard is set, return; read the first
entry of the source charts `dataZoom`; if absent, return; otherwise set the
guard and dispatch that window to every other registered chart, each dispatch
synchronously re-entering `syncZoom` on the receiving chart (with one less
fuel).  The guard stays set when the call finishes; `clearGuardTick` models
the `window.setTimeout(..., 0)` that clears it on the next tick. -/
def syncZoom : ℕ → ℕ → SyncState → SyncState
  | 0, _, s => s
  | fuel + 1, src, s =>
    if s.isSyncing then s
    else
      match (s.charts.get? src).map ChartHandle.dataZoom with
      | none => s
      | some [] => s
      | some (w :: _) =>
        let s1 : SyncState := { s with isSyncing := true, broadcasts := s.broadcasts + 1 }
        (List.range s1.charts.length).foldl
          (fun acc j =>
            if j = src then acc
            else
              syncZoom fuel j { acc with charts := updateAt j (applyDataZoom w) acc.charts })
          s1

/-- The zero-delay timeout callback `() => { isSyncingRef.current = false; }`. -/
def clearGuardTick (s : SyncState) : SyncState := { s with isSyncing := false }

/- ===== Telemetry chart series and geodesy (real-valued) =====
The spec (section 3, data model) fixes that every telemetry channel element is
either a finite number or the explicit no-sample marker `null`; a channel is
therefore embedded as `List (Option ℝ)`, and `typeof x === 'number'` on an
element coincides with `Option.isSome`.  Only the channels consumed by the
embedded functions are modelled. -/

/-- The display unit system `'metric' | 'imperial'` from src/src/lib/utils.ts. -/
inductive UnitSystem where
  | metric
  | imperial
deriving DecidableEq

/-- The `TelemetryData` channels consumed by the embedded chart builders
(src/src/types/index.ts; `altitude`, `latitude` and `longitude` are optional
channels, read in the source with `?? []`). -/
structure TelemetryData where
  time : List ℝ
  height : List (Option ℝ)
  vpsHeight : List (Option ℝ)
  speed : List (Option ℝ)
  altitude : Option (List (Option ℝ))
  latitude : Option (List (Option ℝ))
  longitude : Option (List (Option ℝ))

noncomputable section

/-- Embeds `const hasHeight = data.height.some((val) => val !== null)`
(both versions of `createAltitudeSpeedChart`). -/
def hasHeight (data : TelemetryData) : Bool :=
  data.height.any fun val => val.isSome

/-- Embeds `const heightSource = hasHeight ? data.height : (data.altitude ?? [])`
(both versions of `createAltitudeSpeedChart`). -/
def heightSource (data : TelemetryData) : List (Option ℝ) :=
  if hasHeight data then data.height else data.altitude.getD []

/-- Embeds the `heightSeries` of `createAltitudeSpeedChart`
(src/unnamed/part_004, lines 528-535): imperial maps non-null samples through
`val * 3.28084`, metric passes the source through unchanged. -/
def heightSeriesA (us : UnitSystem) (data : TelemetryData) : List (Option ℝ) :=
  if us = UnitSystem.imperial then
    (heightSource data).map fun val =>
      match val with
      | none => none
      | some v => some (v * 3.28084)
  else heightSource data

/-- Embeds the `heightSeries` of the `createAltitudeSpeedChart` in
src/src/components/charts/TelemetryCharts.tsx (lines 229-235); the code is
textually identical to the part_004 version. -/
def heightSeriesB (us : UnitSystem) (data : TelemetryData) : List (Option ℝ) :=
  if us = UnitSystem.imperial then
    (heightSource data).map fun val =>
      match val with
      | none => none
      | some v => some (v * 3.28084)
  else heightSource data

/-- Embeds the `speedSeries` of `createAltitudeSpeedChart` in
src/unnamed/part_004 (lines 539-542): imperial maps non-null samples through
`val * 2.236936`, metric through `val * 3.6`. -/
def speedSeriesA (us : UnitSystem) (data : TelemetryData) : List (Option ℝ) :=
  if us = UnitSystem.imperial then
    data.speed.map fun val =>
      match val with
      | none => none
      | some v => some (v * 2.236936)
  else
    data.speed.map fun val =>
      match val with
      | none => none
      | some v => some (v * 3.6)

/-- Embeds the `speedUnit` of `createAltitudeSpeedChart` in
src/unnamed/part_004 (line 544): `'mph'` or `'km/h'`. -/
def speedUnitA (us : UnitSystem) : String :=
  if us = UnitSystem.imperial then "mph" else "km/h"

/-- Embeds the `speedSeries` of `createAltitudeSpeedChart` in
src/src/components/charts/TelemetryCharts.tsx (lines 240-243): imperial maps
non-null samples through `val * 2.236936`, metric passes `data.speed` through
unchanged. -/
def speedSeriesB (us : UnitSystem) (data : TelemetryData) : List (Option ℝ) :=
  if us = UnitSystem.imperial then
    data.speed.map fun val =>
      match val with
      | none => none
      | some v => some (v * 2.236936)
  else data.speed

/-- Embeds the `speedUnit` of `createAltitudeSpeedChart` in
src/src/components/charts/TelemetryCharts.tsx (line 245): `'mph'` or `'m/s'`. -/
def speedUnitB (us : UnitSystem) : String :=
  if us = UnitSystem.imperial then "mph" else "m/s"

/-- The element-wise unit conversion named by the spec for length-like
channels: imperial multiplies non-null samples by 3.28084, metric passes them
through. Used to state the claims about the height panel. -/
def unitConvertLength (us : UnitSystem) (xs : List (Option ℝ)) : List (Option ℝ) :=
  if us = UnitSystem.imperial then xs.map fun val => val.map (· * 3.28084) else xs

/-- Embeds `const toRad = (value) => (value * Math.PI) / 180` from
`haversineDistance`. -/
def toRad (value : ℝ) : ℝ := value * Real.pi / 180

/-- Embeds JavaScript `Math.atan2(y, x)` on finite inputs: the angle of the
point `(x, y)`, in `(-π, π]`, with `atan2(0, 0) = 0`. -/
def atan2 (y x : ℝ) : ℝ :=
  if 0 < x then Real.arctan (y / x)
  else if x < 0 then
    (if 0 ≤ y then Real.arctan (y / x) + Real.pi else Real.arctan (y / x) - Real.pi)
  else
    (if 0 < y then Real.pi / 2 else if y < 0 then -(Real.pi / 2) else 0)

/-- Embeds `haversineDistance` (src/unnamed/part_004, lines 1218-1229):
the haversine great-circle distance with Earth radius 6,371,000 m on
degree-valued coordinates. -/
def haversineDistance (lat1 lon1 lat2 lon2 : ℝ) : ℝ :=
  let r : ℝ := 6371000
  let dLat := toRad (lat2 - lat1)
  let dLon := toRad (lon2 - lon1)
  let a := Real.sin (dLat / 2) * Real.sin (dLat / 2) +
    Real.cos (toRad lat1) * Real.cos (toRad lat2) *
    Real.sin (dLon / 2) * Real.sin (dLon / 2)
  let c := 2 * atan2 (Real.sqrt a) (Real.sqrt (1 - a))
  r * c

/-- The distance formula as worded by the spec (section 4.4):
`a = sin²(Δlat/2) + cos(lat1)·cos(lat2)·sin²(Δlon/2)`,
`distance = 2R·atan2(√a, √(1-a))` with `R = 6,371,000`, on degree-valued
coordinates converted to radians. Stated only to compare with the source
embedding `haversineDistance`. -/
def haversineSpecFormula (lat1 lon1 lat2 lon2 : ℝ) : ℝ :=
  let a := Real.sin (toRad (lat2 - lat1) / 2) ^ 2 +
    Real.cos (toRad lat1) * Real.cos (toRad lat2) * Real.sin (toRad (lon2 - lon1) / 2) ^ 2
  2 * 6371000 * atan2 (Real.sqrt a) (Real.sqrt (1 - a))

/-- Embeds the home-finding loop of `computeDistanceToHomeSeries`
(src/unnamed/part_004, lines 1195-1205): scan the latitude channel in index
order, in step with the longitude channel (an exhausted longitude channel
reads as `undefined`), and return the first pair of present samples. -/
def findHome : List (Option ℝ) → List (Option ℝ) → Option (ℝ × ℝ)
  | [], _ => none
  | _ :: ls, [] => findHome ls []
  | la :: ls, ln :: lns =>
    match la, ln with
    | some lat, some lng => some (lat, lng)
    | _, _ => findHome ls lns

/-- The coordinate pair at an index: present only when both the latitude and
the longitude sample at that index exist and are non-null (out-of-range reads
are `undefined` in the source and fail the same `typeof` test). -/
def coordAt (lats lngs : List (Option ℝ)) (i : ℕ) : Option (ℝ × ℝ) :=
  match (lats.get? i).getD none, (lngs.get? i).getD none with
  | some lat, some lng => some (lat, lng)
  | _, _ => none

/-- Embeds `computeDistanceToHomeSeries` (src/unnamed/part_004, lines
1192-1216): resolve the home point from the first sample with both
coordinates present; without one, every output is null; otherwise map over
the time axis, yielding null where either coordinate is missing and the
haversine distance to home elsewhere. -/
def computeDistanceToHomeSeries (data : TelemetryData) : List (Option ℝ) :=
  let lats := data.latitude.getD []
  let lngs := data.longitude.getD []
  match findHome lats lngs with
  | none => data.time.map fun _ => none
  | some (homeLat, homeLng) =>
    (List.range data.time.length).map fun index =>
      match coordAt lats lngs index with
      | none => none
      | some (lat, lng) => some (haversineDistance homeLat homeLng lat lng)

end

/-- One step of the broadcast loop of `syncZoom`: skip the source chart,
dispatch the window to any other chart and synchronously run the handler of
the receiving chart. Definitionally the function folded in `syncZoom`. -/
def broadcastStep (fuel src : ℕ) (w : ZoomWindow) (acc : SyncState) (j : ℕ) : SyncState :=
  if j = src then acc
  else syncZoom fuel j { acc with charts := updateAt j (applyDataZoom w) acc.charts }

/- ===== Shared helper lemmas ===== -/

/-- The clean step is idempotent: pre-filtering with the same test does not
change the cleaned list. -/
theorem cleanValues_filter (values : List JSValue) :
    cleanValues (values.filter fun v => jsTypeofNumber v && jsIsFiniteNum v)
      = cleanValues values := by
  induction values with
  | nil => rfl
  | cons v vs ih =>
    cases v <;>
      simp [cleanValues, List.filter_cons, jsTypeofNumber, jsIsFiniteNum, finitePart,
        List.filterMap_cons, ih] <;>
      simpa [cleanValues] using ih

/-- An all-null list cleans to the empty list. -/
theorem cleanValues_all_null (values : List JSValue)
    (h : ∀ v ∈ values, v = JSValue.null) : cleanValues values = [] := by
  induction values with
  | nil => rfl
  | cons v vs ih =>
    have hv : v = JSValue.null := h v (List.mem_cons_self v vs)
    subst hv
    simp only [cleanValues, List.filterMap_cons, jsTypeofNumber, jsIsFiniteNum,
      Bool.false_and, if_false, Bool.and_false]
    exact ih fun w hw => h w (List.mem_cons_of_mem _ hw)

/-- The second argument is a lower bound of `jsMax`. -/
theorem le_jsMax (a b : ℚ) : b ≤ jsMax a b := by
  unfold jsMax
  split
  · assumption
  · exact le_refl b

/-- The second argument is an upper bound of `jsMin`. -/
theorem jsMin_le (a b : ℚ) : jsMin a b ≤ b := by
  unfold jsMin
  split
  · assumption
  · exact le_refl b

/- ===== Claim C1 ===== -/

/-- C1: the claim that `computeRange` always returns strictly separated bounds
on non-empty finite input fails: for the one-element input `[0.01]` the
widen-pad-round pipeline collapses both bounds to `0.01`, and the final
re-widening step rounds both bounds straight back to `0.01`, so the result has
`min = max`, contradicting the guaranteed `min < max`. -/
theorem computeRange_collapsed_bounds :
    computeRange [JSValue.num (1 / 100)] noOptions = ⟨some (1 / 100), some (1 / 100)⟩
    ∧ (computeRange [JSValue.num (1 / 100)] noOptions).min
        = (computeRange [JSValue.num (1 / 100)] noOptions).max := by
  have h : computeRange [JSValue.num (1 / 100)] noOptions
      = ⟨some (1 / 100), some (1 / 100)⟩ := by
    simp only [computeRange, rangeAfterClamp, cleanValues, List.filterMap_cons,
      List.filterMap_nil, jsTypeofNumber, jsIsFiniteNum, finitePart, Bool.and_self,
      if_true, rawBounds, List.foldl_nil, List.foldl_cons, noOptions, Option.map_some,
      Option.getD, widenIfFlat, applyPadding, applyClamps, finalizeRange, roundAxisValue,
      jsToFixed, jsAbs, jsMin, jsMax]
    norm_num [Int.floor_eq_iff]
  exact ⟨h, by rw [h]⟩

/- ===== Claim C2 ===== -/

/-- C2 counterexample: with `clampMin = 0.544` and input values
`[0.544, 20]`, the returned `min` is `0.54 < 0.544`; the magnitude-dependent
rounding runs after the clamp step and moves the bound past the clamp, so the
claim that the returned bounds always respect provided clamps is false. -/
theorem computeRange_clamp_counterexample :
    computeRange [JSValue.num (68 / 125), JSValue.num 20] ⟨some (68 / 125), none, none⟩
        = ⟨some (27 / 50), some (108 / 5)⟩
    ∧ (27 : ℚ) / 50 < 68 / 125 := by
  constructor
  · simp only [computeRange, rangeAfterClamp, cleanValues, List.filterMap_cons,
      List.filterMap_nil, jsTypeofNumber, jsIsFiniteNum, finitePart, Bool.and_self,
      if_true, rawBounds, List.foldl_nil, List.foldl_cons, Option.map_some,
      Option.getD, widenIfFlat, applyPadding, applyClamps, finalizeRange, roundAxisValue,
      jsToFixed, jsAbs, jsMin, jsMax]
    norm_num [Int.floor_eq_iff]
  · norm_num

/-- C2 amended: the clamps are enforced on the padded bounds, before the
rounding step: whenever the pipeline reaches the clamp stage, the clamped
minimum is at least `clampMin` and the clamped maximum is at most `clampMax`
(when provided), and the value `computeRange` returns is exactly the rounding
and re-widening of those clamped bounds (which, as the counterexample shows,
may move past the clamps). -/
theorem rangeAfterClamp_respects_clamps :
    ∀ (values : List JSValue) (opts : RangeOptions) (b : ℚ × ℚ),
      rangeAfterClamp values opts = some b →
      (∀ c ∈ opts.clampMin, c ≤ b.1) ∧ (∀ c ∈ opts.clampMax, b.2 ≤ c) ∧
        computeRange values opts = finalizeRange b := by
  intro values opts b h
  have hb : ∃ p, rawBounds (cleanValues values) = some p ∧
      b = applyClamps opts (applyPadding opts.paddingRatioOpt (widenIfFlat p.1 p.2)) := by
    cases hr : rawBounds (cleanValues values) with
    | none => rw [rangeAfterClamp, hr] at h; simp at h
    | some p =>
      rw [rangeAfterClamp, hr] at h
      simp only [Option.map_some', Option.some.injEq] at h
      exact ⟨p, rfl, h.symm⟩
  obtain ⟨p, hp, hbp⟩ := hb
  refine ⟨?_, ?_, ?_⟩
  · intro c hc
    rw [Option.mem_def] at hc
    rw [hbp]
    simp only [applyClamps, hc]
    exact le_jsMax _ c
  · intro c hc
    rw [Option.mem_def] at hc
    rw [hbp]
    simp only [applyClamps, hc]
    exact jsMin_le _ c
  · rw [computeRange, h]

/-- Witness for the amended C2: on battery-style input `[0, 100]` with clamps
`[0, 100]`, the clamp stage yields the bounds `(0, 100)` and both clamps hold
there. -/
theorem rangeAfterClamp_respects_clamps_witness :
    (0 : ℚ) ≤ 0 ∧ (100 : ℚ) ≤ 100 ∧
      computeRange [JSValue.num 0, JSValue.num 100] ⟨some 0, some 100, none⟩
        = finalizeRange (0, 100) := by
  have hstage : rangeAfterClamp [JSValue.num 0, JSValue.num 100] ⟨some 0, some 100, none⟩
      = some (0, 100) := by
    simp only [rangeAfterClamp, cleanValues, List.filterMap_cons, List.filterMap_nil,
      jsTypeofNumber, jsIsFiniteNum, finitePart, Bool.and_self, if_true, rawBounds,
      List.foldl_nil, List.foldl_cons, Option.map_some, Option.getD, widenIfFlat,
      applyPadding, applyClamps, jsAbs, jsMin, jsMax]
    norm_num
  have h := rangeAfterClamp_respects_clamps [JSValue.num 0, JSValue.num 100]
    ⟨some 0, some 100, none⟩ (0, 100) hstage
  exact ⟨h.1 0 rfl, h.2.1 100 rfl, h.2.2⟩

/- ===== Claim C3 ===== -/

/-- C3: `computeRange` first discards every null, undefined and non-finite
element (its result on any input equals its result on the input filtered by
the `typeof number` and `isFinite` tests), and when no finite value remains —
in particular for the empty input and for an all-null input — it returns the
empty record with neither bound present. -/
theorem computeRange_filters_and_empty :
    (∀ (values : List JSValue) (opts : RangeOptions),
        computeRange values opts =
          computeRange (values.filter fun v => jsTypeofNumber v && jsIsFiniteNum v) opts)
    ∧ (∀ (values : List JSValue) (opts : RangeOptions),
        cleanValues values = [] → computeRange values opts = ⟨none, none⟩)
    ∧ (∀ opts : RangeOptions, computeRange [] opts = ⟨none, none⟩)
    ∧ (∀ (values : List JSValue) (opts : RangeOptions),
        (∀ v ∈ values, v = JSValue.null) → computeRange values opts = ⟨none, none⟩) := by
  have hempty : ∀ (values : List JSValue) (opts : RangeOptions),
      cleanValues values = [] → computeRange values opts = ⟨none, none⟩ := by
    intro values opts h
    simp [computeRange, rangeAfterClamp, h, rawBounds]
  refine ⟨?_, hempty, ?_, ?_⟩
  · intro values opts
    simp [computeRange, rangeAfterClamp, cleanValues_filter]
  · intro opts
    exact hempty [] opts rfl
  · intro values opts h
    exact hempty values opts (cleanValues_all_null values h)

/-- Witness for C3: a list of one null, one `NaN`, one infinity and one
undefined cleans to nothing and produces the empty range record. -/
theorem computeRange_filters_and_empty_witness :
    computeRange [JSValue.null, JSValue.nan, JSValue.posInf, JSValue.undef] noOptions
      = ⟨none, none⟩ :=
  computeRange_filters_and_empty.2.1 _ noOptions rfl

/- ===== Claim C8 helper lemmas ===== -/

/-- The segment loop produces one segment per consecutive pair. -/
theorem segmentsAux_length (is3D : Bool) (denom : ℚ) :
    ∀ (l : List GeoPoint) (i : ℕ), (segmentsAux is3D denom i l).length = l.length - 1
  | [], _ => rfl
  | [_], _ => rfl
  | _ :: p2 :: rest, i => by
    have ih := segmentsAux_length is3D denom (p2 :: rest) (i + 1)
    simp only [segmentsAux, List.length_cons] at ih ⊢
    omega

/-- The color of the j-th segment produced by the loop started at index i is
the gradient sample at `(i + j) / denom`. -/
theorem segmentsAux_color (is3D : Bool) (denom : ℚ) :
    ∀ (l : List GeoPoint) (i j : ℕ), j < l.length - 1 →
      ((segmentsAux is3D denom i l).get? j).map PathSegment.color
        = some (interpColor (((i + j : ℕ) : ℚ) / denom))
  | [], _, j, h => by simp at h
  | [_], _, j, h => by simp at h
  | _ :: p2 :: rest, i, 0, _ => by
    simp [segmentsAux]
  | _ :: p2 :: rest, i, j + 1, h => by
    have hj : j < (p2 :: rest).length - 1 := by
      simp only [List.length_cons] at h ⊢
      omega
    have ih := segmentsAux_color is3D denom (p2 :: rest) (i + 1) j hj
    have harg : ((i + 1 + j : ℕ) : ℚ) = ((i + (j + 1) : ℕ) : ℚ) := by
      push_cast
      ring
    rw [harg] at ih
    simpa [segmentsAux] using ih

/- ===== Claim C8 ===== -/

/-- C8 counterexample: on a 3-point track there are 2 segments, and the code
colors segment 1 with the gradient parameter `1 / max(1, 3-2) = 1`, i.e. the
end color `(239, 68, 68)` — not with `segment index / segment count = 1/2`,
whose gradient sample is `(245, 136, 45)`; so the stated parameterization
"segment index over total segment count" does not match the code. -/
theorem deckPathData_gradient_counterexample :
    ((deckPathData false [⟨0, 0, 0⟩, ⟨1, 1, 1⟩, ⟨2, 2, 2⟩]).get? 1).map PathSegment.color
        = some (239, 68, 68)
    ∧ interpColor ((1 : ℚ) / 2) = (245, 136, 45)
    ∧ ((239, 68, 68) : ℤ × ℤ × ℤ) ≠ (245, 136, 45) := by
  refine ⟨?_, ?_, by decide⟩
  · simp only [deckPathData, List.length_cons, List.length_nil, segmentsAux,
      interpColor, gradStart, gradEnd, jsRound, toAlt]
    norm_num [Int.floor_eq_iff]
  · simp only [interpColor, gradStart, gradEnd, jsRound]
    norm_num [Int.floor_eq_iff]

/-- C8 amended: tracks with fewer than 2 points produce no segments; a track
with n ≥ 2 points produces exactly n-1 segments, the color of segment j being
the linear interpolation from `(250, 204, 21)` to `(239, 68, 68)` at parameter
`j / max(1, n - 2)` — segment index over one less than the segment count, so
the last segment carries exactly the end color; on any 5-point track there
are 4 segments, segment 0 carrying the start color and segment 3 the end
color. -/
theorem deckPathData_segments :
    (∀ (is3D : Bool) (track : List GeoPoint), track.length < 2 →
        deckPathData is3D track = [])
    ∧ (∀ (is3D : Bool) (track : List GeoPoint), 2 ≤ track.length →
        (deckPathData is3D track).length = track.length - 1)
    ∧ (∀ (is3D : Bool) (track : List GeoPoint) (j : ℕ), 2 ≤ track.length →
        j < track.length - 1 →
        ((deckPathData is3D track).get? j).map PathSegment.color
          = some (interpColor ((j : ℚ) / ((max 1 (track.length - 2) : ℕ) : ℚ))))
    ∧ (∀ (is3D : Bool) (p0 p1 p2 p3 p4 : GeoPoint),
        (deckPathData is3D [p0, p1, p2, p3, p4]).length = 4
        ∧ ((deckPathData is3D [p0, p1, p2, p3, p4]).get? 0).map PathSegment.color
            = some (250, 204, 21)
        ∧ ((deckPathData is3D [p0, p1, p2, p3, p4]).get? 3).map PathSegment.color
            = some (239, 68, 68)) := by
  have hshort : ∀ (is3D : Bool) (track : List GeoPoint), track.length < 2 →
      deckPathData is3D track = [] := by
    intro is3D track h
    simp [deckPathData, h]
  have hlen : ∀ (is3D : Bool) (track : List GeoPoint), 2 ≤ track.length →
      (deckPathData is3D track).length = track.length - 1 := by
    intro is3D track h
    rw [deckPathData, if_neg (by omega)]
    exact segmentsAux_length is3D _ track 0
  have hcolor : ∀ (is3D : Bool) (track : List GeoPoint) (j : ℕ), 2 ≤ track.length →
      j < track.length - 1 →
      ((deckPathData is3D track).get? j).map PathSegment.color
        = some (interpColor ((j : ℚ) / ((max 1 (track.length - 2) : ℕ) : ℚ))) := by
    intro is3D track j h hj
    rw [deckPathData, if_neg (by omega)]
    have := segmentsAux_color is3D ((max 1 (track.length - 2) : ℕ) : ℚ) track 0 j hj
    simpa using this
  refine ⟨hshort, hlen, hcolor, ?_⟩
  intro is3D p0 p1 p2 p3 p4
  refine ⟨hlen is3D _ (by simp), ?_, ?_⟩
  · have h := hcolor is3D [p0, p1, p2, p3, p4] 0 (by simp) (by simp)
    rw [h]
    simp only [interpColor, gradStart, gradEnd, jsRound]
    norm_num [Int.floor_eq_iff]
  · have h := hcolor is3D [p0, p1, p2, p3, p4] 3 (by simp) (by simp)
    rw [h]
    simp only [interpColor, gradStart, gradEnd, jsRound]
    norm_num [Int.floor_eq_iff]

/-- Witness for the amended C8: a concrete 2-point track produces one segment
colored with the start color, and a concrete 1-point track produces nothing. -/
theorem deckPathData_segments_witness :
    deckPathData true [⟨5, 6, 7⟩] = []
    ∧ (deckPathData true [⟨5, 6, 7⟩, ⟨8, 9, 10⟩]).length = 1
    ∧ ((deckPathData true [⟨5, 6, 7⟩, ⟨8, 9, 10⟩]).get? 0).map PathSegment.color
        = some (interpColor ((0 : ℚ) / ((max 1 ([⟨5, 6, 7⟩, (⟨8, 9, 10⟩ : GeoPoint)].length - 2) : ℕ) : ℚ))) :=
  ⟨deckPathData_segments.1 true _ (by simp),
   deckPathData_segments.2.1 true _ (by simp),
   deckPathData_segments.2.2.1 true _ 0 (by simp) (by simp)⟩

/- ===== Claim C9 helper lemmas ===== -/

/-- The reentrancy guard: `syncZoom` on a state with the guard set is inert. -/
theorem syncZoom_guard (fuel src : ℕ) (s : SyncState) (h : s.isSyncing = true) :
    syncZoom fuel src s = s := by
  cases fuel with
  | zero => rfl
  | succ n => simp [syncZoom, h]

/-- Reading an updated list: only the updated index changes. -/
theorem get?_updateAt {α : Type} : ∀ (i : ℕ) (f : α → α) (l : List α) (j : ℕ),
    (updateAt i f l).get? j = if j = i then (l.get? j).map f else l.get? j
  | _, _, [], j => by simp [updateAt]
  | 0, f, a :: as, 0 => by simp [updateAt]
  | 0, f, a :: as, j + 1 => by simp [updateAt]
  | i + 1, f, a :: as, 0 => by simp [updateAt]
  | i + 1, f, a :: as, j + 1 => by
    have ih := get?_updateAt i f as j
    simp only [updateAt, List.get?_cons_succ, Nat.add_right_cancel_iff]
    exact ih

/-- Unfolding `syncZoom` on a clean state whose source chart has a non-empty
`dataZoom` array: the guard is set, the broadcast counter advances, and the
window is folded over all registered charts. -/
theorem syncZoom_succ_eq (fuel src : ℕ) (s : SyncState) (w : ZoomWindow)
    (ws : List ZoomWindow) (hg : s.isSyncing = false)
    (hw : (s.charts.get? src).map ChartHandle.dataZoom = some (w :: ws)) :
    syncZoom (fuel + 1) src s =
      (List.range s.charts.length).foldl (broadcastStep fuel src w)
        { s with isSyncing := true, broadcasts := s.broadcasts + 1 } := by
  rw [syncZoom, hg]
  simp only [Bool.false_eq_true, if_false, hw]
  rfl

/-- Folding the broadcast step over a duplicate-free index list with the guard
set: the guard stays set, no further guard-passing rebroadcast happens, and
exactly the listed non-source charts receive the window. -/
theorem broadcastFold_spec (fuel src : ℕ) (w : ZoomWindow) :
    ∀ (L : List ℕ) (s : SyncState), s.isSyncing = true → L.Nodup →
      (L.foldl (broadcastStep fuel src w) s).isSyncing = true
      ∧ (L.foldl (broadcastStep fuel src w) s).broadcasts = s.broadcasts
      ∧ ∀ j, (L.foldl (broadcastStep fuel src w) s).charts.get? j
          = if j ∈ L ∧ j ≠ src then (s.charts.get? j).map (applyDataZoom w)
            else s.charts.get? j
  | [], s, hs, _ => ⟨hs, rfl, fun j => by simp⟩
  | ℓ :: L, s, hs, hnd => by
    have hstep : broadcastStep fuel src w s ℓ =
        if ℓ = src then s else { s with charts := updateAt ℓ (applyDataZoom w) s.charts } := by
      unfold broadcastStep
      split
      · rfl
      · exact syncZoom_guard fuel ℓ _ hs
    have hs' : (broadcastStep fuel src w s ℓ).isSyncing = true := by
      rw [hstep]; split <;> exact hs
    have hb' : (broadcastStep fuel src w s ℓ).broadcasts = s.broadcasts := by
      rw [hstep]; split <;> rfl
    have hc' : ∀ j, (broadcastStep fuel src w s ℓ).charts.get? j
        = if ℓ ≠ src ∧ j = ℓ then (s.charts.get? j).map (applyDataZoom w)
          else s.charts.get? j := by
      intro j
      rw [hstep]
      by_cases hls : ℓ = src
      · simp [hls]
      · simp only [if_neg hls, get?_updateAt]
        by_cases hjl : j = ℓ
        · simp [hjl, hls]
        · simp [hjl, hls]
    have ih := broadcastFold_spec fuel src w L (broadcastStep fuel src w s ℓ) hs'
      (List.Nodup.of_cons hnd)
    have hmem : ℓ ∉ L := (List.nodup_cons.mp hnd).1
    refine ⟨by simpa [List.foldl_cons] using ih.1,
      by simpa [List.foldl_cons, hb'] using ih.2.1, ?_⟩
    intro j
    have hj := ih.2.2 j
    rw [List.foldl_cons]
    rw [hj, hc' j]
    by_cases hjsrc : j = src
    · subst hjsrc
      have hcontra : ¬(ℓ ≠ j ∧ j = ℓ) := fun hh => hh.1 hh.2.symm
      simp [hmem, hcontra]
    · by_cases hjL : j ∈ L
      · have hjl : j ≠ ℓ := fun hh => hmem (hh ▸ hjL)
        simp [hjL, hjsrc, hjl]
      · by_cases hjl : j = ℓ
        · subst hjl
          by_cases hls : j = src
        
          · simp [hls] at hjsrc
          · simp [hjL, hjsrc, hls, List.mem_cons]
        · simp [hjL, hjsrc, hjl, List.mem_cons]

/- ===== Claim C9 ===== -/

/-- C9: firing a zoom event on a registered source panel (with the guard
clear) re-applies the first `dataZoom` window of the source to every other
registered panel and only those — the source state is untouched — while the
reentrancy guard keeps the synchronously fired `dataZoom` handlers of the
sibling panels from rebroadcasting: exactly one guard-passing broadcast
happens, the guard is still set when the call returns, and the next
scheduling tick clears it. -/
theorem syncZoom_broadcast :
    ∀ (charts : List ChartHandle) (src fuel : ℕ) (w : ZoomWindow) (ws : List ZoomWindow),
      (charts.get? src).map ChartHandle.dataZoom = some (w :: ws) →
      (syncZoom (fuel + 1) src ⟨charts, false, 0⟩).broadcasts = 1
      ∧ (syncZoom (fuel + 1) src ⟨charts, false, 0⟩).isSyncing = true
      ∧ (clearGuardTick (syncZoom (fuel + 1) src ⟨charts, false, 0⟩)).isSyncing = false
      ∧ (∀ j, j ≠ src →
          (syncZoom (fuel + 1) src ⟨charts, false, 0⟩).charts.get? j
            = (charts.get? j).map (applyDataZoom w))
      ∧ (syncZoom (fuel + 1) src ⟨charts, false, 0⟩).charts.get? src
          = charts.get? src := by
  intro charts src fuel w ws hw
  have hrun : syncZoom (fuel + 1) src ⟨charts, false, 0⟩ =
      (List.range charts.length).foldl (broadcastStep fuel src w)
        ⟨charts, true, 1⟩ :=
    syncZoom_succ_eq fuel src ⟨charts, false, 0⟩ w ws rfl hw
  have hfold := broadcastFold_spec fuel src w (List.range charts.length)
    ⟨charts, true, 1⟩ rfl (List.nodup_range charts.length)
  refine ⟨?_, ?_, ?_, ?_, ?_⟩
  · rw [hrun]; exact hfold.2.1
  · rw [hrun]; exact hfold.1
  · rw [clearGuardTick]
  · intro j hj
    rw [hrun, hfold.2.2 j]
    by_cases hrange : j ∈ List.range charts.length
    · simp [hrange, hj]
    · have hlen : charts.length ≤ j := by
        simpa [List.mem_range, Nat.not_lt] using hrange
      have hnone : charts[j]? = none := List.getElem?_eq_none hlen
      simp [hrange, hnone]
  · rw [hrun, hfold.2.2 src]
    simp

/-- Witness for C9, the 3-panel scenario of the spec: panels `A`, `B`, `C`
registered with `A` holding the window `{start: 10, end: 60}`; firing the zoom
event on `A` produces exactly one broadcast and hands `B` and `C` that
window. -/
theorem syncZoom_broadcast_witness :
    (syncZoom 2 0 ⟨[⟨[⟨some 10, some 60, none, none⟩], []⟩, ⟨[], []⟩, ⟨[], []⟩],
        false, 0⟩).broadcasts = 1
    ∧ (syncZoom 2 0 ⟨[⟨[⟨some 10, some 60, none, none⟩], []⟩, ⟨[], []⟩, ⟨[], []⟩],
        false, 0⟩).charts.get? 1
        = some ⟨[⟨some 10, some 60, none, none⟩], [⟨some 10, some 60, none, none⟩]⟩
    ∧ (syncZoom 2 0 ⟨[⟨[⟨some 10, some 60, none, none⟩], []⟩, ⟨[], []⟩, ⟨[], []⟩],
        false, 0⟩).charts.get? 2
        = some ⟨[⟨some 10, some 60, none, none⟩], [⟨some 10, some 60, none, none⟩]⟩ := by
  have h := syncZoom_broadcast
    [⟨[⟨some 10, some 60, none, none⟩], []⟩, ⟨[], []⟩, ⟨[], []⟩] 0 1
    ⟨some 10, some 60, none, none⟩ [] rfl
  refine ⟨h.1, ?_, ?_⟩
  · rw [h.2.2.2.1 1 (by decide)]; rfl
  · rw [h.2.2.2.1 2 (by decide)]; rfl

/- ===== Claim C4 ===== -/

/-- C4 counterexample: the `createAltitudeSpeedChart` in
src/src/components/charts/TelemetryCharts.tsx displays the raw m/s values in
metric mode, with the axis labelled `m/s`: for a speed channel `[1]` the
metric display series is `[1]`, not `[3.6]`, so the claim that the displayed
metric speed series is always the samples multiplied by 3.6 (and never raw
m/s) fails for that version of the chart. -/
theorem speed_metric_counterexample :
    speedSeriesB UnitSystem.metric ⟨[0], [], [], [some 1], none, none, none⟩ = [some 1]
    ∧ ([some (1 : ℝ)] : List (Option ℝ)) ≠ [some ((1 : ℝ) * 3.6)]
    ∧ speedUnitB UnitSystem.metric = "m/s"
    ∧ ("m/s" : String) ≠ "km/h" := by
  refine ⟨rfl, ?_, rfl, by decide⟩
  intro h
  simp only [List.cons.injEq, Option.some.injEq, and_true] at h
  norm_num at h

/-- C4 amended: in the part_004 version of `createAltitudeSpeedChart` the
metric display speed series is every non-null sample multiplied by 3.6 with
the axis labelled km/h, and the imperial series is every non-null sample
multiplied by 2.236936 with the axis labelled mph, nulls passing through; in
the src/src/components/charts/TelemetryCharts.tsx version the imperial
behaviour is the same, but metric mode passes the raw m/s samples through
unchanged, with the axis labelled m/s. -/
theorem speed_series_units :
    (∀ data : TelemetryData,
        speedSeriesA UnitSystem.metric data = data.speed.map fun val => val.map (· * 3.6))
    ∧ (∀ data : TelemetryData,
        speedSeriesA UnitSystem.imperial data
          = data.speed.map fun val => val.map (· * 2.236936))
    ∧ speedUnitA UnitSystem.metric = "km/h"
    ∧ speedUnitA UnitSystem.imperial = "mph"
    ∧ (∀ data : TelemetryData, speedSeriesB UnitSystem.metric data = data.speed)
    ∧ (∀ data : TelemetryData,
        speedSeriesB UnitSystem.imperial data
          = data.speed.map fun val => val.map (· * 2.236936))
    ∧ speedUnitB UnitSystem.metric = "m/s"
    ∧ speedUnitB UnitSystem.imperial = "mph" := by
  refine ⟨?_, ?_, rfl, rfl, fun _ => rfl, ?_, rfl, rfl⟩
  · intro data
    rw [speedSeriesA, if_neg (by decide)]
    refine List.map_congr_left fun val _ => ?_
    cases val <;> rfl
  · intro data
    rw [speedSeriesA, if_pos rfl]
    refine List.map_congr_left fun val _ => ?_
    cases val <;> rfl
  · intro data
    rw [speedSeriesB, if_pos rfl]
    refine List.map_congr_left fun val _ => ?_
    cases val <;> rfl

/- ===== Claim C5 ===== -/

/-- The imperial conversion lambda of the chart builders, as an `Option.map`. -/
theorem height_match_map (val : Option ℝ) :
    (match val with
      | none => none
      | some v => some (v * 3.28084)) = val.map (· * 3.28084) := by
  cases val <;> rfl

/-- `hasHeight` is the existence of a non-null height sample. -/
theorem hasHeight_iff (data : TelemetryData) :
    hasHeight data = true ↔ ∃ v ∈ data.height, v.isSome := by
  simp [hasHeight, List.any_eq_true]

/-- C5: whenever the height channel has at least one non-null sample, the
height panel series is the height channel unit-converted element-wise; when
every height sample is null, it is the altitude channel (read with `?? []`)
unit-converted element-wise — never a per-index mixture; and the two source
versions of the builder agree. -/
theorem heightSeries_fallback :
    (∀ (us : UnitSystem) (data : TelemetryData), (∃ v ∈ data.height, v.isSome) →
        heightSeriesA us data = unitConvertLength us data.height)
    ∧ (∀ (us : UnitSystem) (data : TelemetryData), (∀ v ∈ data.height, v = none) →
        heightSeriesA us data = unitConvertLength us (data.altitude.getD []))
    ∧ (∀ (us : UnitSystem) (data : TelemetryData),
        heightSeriesB us data = heightSeriesA us data) := by
  refine ⟨?_, ?_, fun _ _ => rfl⟩
  · intro us data hex
    have hh : hasHeight data = true := (hasHeight_iff data).mpr hex
    cases us <;>
      simp [heightSeriesA, heightSource, hh, unitConvertLength, height_match_map]
  · intro us data hall
    have hh : hasHeight data = false := by
      rw [hasHeight, List.any_eq_false]
      intro v hv
      simp [hall v hv]
    cases us <;>
      simp [heightSeriesA, heightSource, hh, unitConvertLength, height_match_map]

/-- Witness for C5: with height `[1]` and altitude `[2]` present, the metric
height panel shows the height channel. -/
theorem heightSeries_fallback_witness :
    heightSeriesA UnitSystem.metric
        ⟨[0], [some 1], [], [], some [some 2], none, none⟩ = [some (1 : ℝ)] := by
  have h := heightSeries_fallback.1 UnitSystem.metric
    ⟨[0], [some 1], [], [], some [some 2], none, none⟩ ⟨some 1, by simp, rfl⟩
  simpa [unitConvertLength] using h

/- ===== Claim C10 ===== -/

/-- C10: the distance-to-home series always has exactly the length of the
time sequence, whatever the shape of the latitude and longitude channels
(absent, shorter or longer than the time axis included). -/
theorem computeDistanceToHomeSeries_length :
    ∀ data : TelemetryData,
      (computeDistanceToHomeSeries data).length = data.time.length := by
  intro data
  rw [computeDistanceToHomeSeries]
  cases h : findHome (data.latitude.getD []) (data.longitude.getD []) with
  | none => simp
  | some p =>
    obtain ⟨a, b⟩ := p
    simp

/- ===== Claim C6 helper lemmas ===== -/

/-- When the home scan fails, no index holds a complete coordinate pair. -/
theorem findHome_none : ∀ (lats lngs : List (Option ℝ)),
    findHome lats lngs = none → ∀ i, coordAt lats lngs i = none
  | [], lngs, _, i => by cases i <;> rfl
  | la :: ls, [], h, i => by
    cases i with
    | zero => cases la <;> rfl
    | succ n => exact findHome_none ls [] h n
  | la :: ls, ln :: lns, h, i => by
    cases la with
    | none =>
      cases i with
      | zero => rfl
      | succ n => exact findHome_none ls lns h n
    | some a =>
      cases ln with
      | none =>
        cases i with
        | zero => rfl
        | succ n => exact findHome_none ls lns h n
      | some b => simp [findHome] at h

/-- The home scan returns the coordinate pair of the first index with both
coordinates present: every earlier index misses a coordinate. -/
theorem findHome_some : ∀ (lats lngs : List (Option ℝ)) (p : ℝ × ℝ),
    findHome lats lngs = some p →
    ∃ i, coordAt lats lngs i = some p ∧ ∀ j, j < i → coordAt lats lngs j = none
  | [], lngs, p, h => by simp [findHome] at h
  | la :: ls, [], p, h => by
    obtain ⟨i, hi, hj⟩ := findHome_some ls [] p h
    refine ⟨i + 1, hi, fun j hjlt => ?_⟩
    cases j with
    | zero => cases la <;> rfl
    | succ m => exact hj m (by omega)
  | la :: ls, ln :: lns, p, h => by
    cases la with
    | none =>
      obtain ⟨i, hi, hj⟩ := findHome_some ls lns p h
      refine ⟨i + 1, hi, fun j hjlt => ?_⟩
      cases j with
      | zero => rfl
      | succ m => exact hj m (by omega)
    | some a =>
      cases ln with
      | none =>
        obtain ⟨i, hi, hj⟩ := findHome_some ls lns p h
        refine ⟨i + 1, hi, fun j hjlt => ?_⟩
        cases j with
        | zero => rfl
        | succ m => exact hj m (by omega)
      | some b =>
        have hp : p = (a, b) := by
          have := h.symm
          simpa [findHome] using this
        exact ⟨0, by simp [coordAt, hp], fun j hjlt => by omega⟩

/-- The haversine distance from any point to itself is zero. -/
theorem haversineDistance_self (lat lon : ℝ) :
    haversineDistance lat lon lat lon = 0 := by
  have h1 : toRad (lat - lat) = 0 := by simp [toRad]
  have h2 : toRad (lon - lon) = 0 := by simp [toRad]
  rw [haversineDistance]
  rw [h1, h2]
  norm_num [atan2, Real.sqrt_zero, Real.sqrt_one, Real.arctan_zero]

/- ===== Claim C6 ===== -/

/-- C6: the distance-to-home series takes as home the coordinate pair of the
first index (in time order) at which both latitude and longitude are present
(finite — the data model admits only finite samples or null); if no index has
a complete pair, every output is null; any sample missing a coordinate yields
null, never zero; and on `time = [0,1,2]`, `latitude = [null,10,10]`,
`longitude = [null,20,20]` the output is `[null, 0, 0]`. -/
theorem computeDistanceToHomeSeries_spec :
    (∀ data : TelemetryData,
        (∀ i, coordAt (data.latitude.getD []) (data.longitude.getD []) i = none) →
        ∀ x ∈ computeDistanceToHomeSeries data, x = none)
    ∧ (∀ (lats lngs : List (Option ℝ)) (p : ℝ × ℝ), findHome lats lngs = some p →
        ∃ i, coordAt lats lngs i = some p ∧ ∀ j, j < i → coordAt lats lngs j = none)
    ∧ (∀ (data : TelemetryData) (i : ℕ), i < data.time.length →
        coordAt (data.latitude.getD []) (data.longitude.getD []) i = none →
        (computeDistanceToHomeSeries data).get? i = some none)
    ∧ computeDistanceToHomeSeries ⟨[0, 1, 2], [], [], [], none,
        some [none, some 10, some 10], some [none, some 20, some 20]⟩
      = [none, some 0, some 0] := by
  refine ⟨?_, findHome_some, ?_, ?_⟩
  · intro data hall x hx
    have hnone : findHome (data.latitude.getD []) (data.longitude.getD []) = none := by
      cases hf : findHome (data.latitude.getD []) (data.longitude.getD []) with
      | none => rfl
      | some p =>
        obtain ⟨i, hi, _⟩ := findHome_some _ _ p hf
        rw [hall i] at hi
        exact absurd hi (by simp)
    rw [computeDistanceToHomeSeries, hnone] at hx
    simpa using (List.mem_map.mp hx).choose_spec.2.symm
  · intro data i hi hmiss
    rw [computeDistanceToHomeSeries]
    cases hf : findHome (data.latitude.getD []) (data.longitude.getD []) with
    | none =>
      rw [List.get?_map]
      rw [List.get?_eq_get hi]
      rfl
    | some p =>
      obtain ⟨a, b⟩ := p
      rw [List.get?_map, List.get?_range hi, Option.map_some']
      rw [hmiss]
  · have hfh : findHome [none, some (10 : ℝ), some 10] [none, some (20 : ℝ), some 20]
        = some (10, 20) := rfl
    rw [computeDistanceToHomeSeries]
    simp only [Option.getD_some, hfh]
    show [(none : Option ℝ), some (haversineDistance 10 20 10 20),
      some (haversineDistance 10 20 10 20)] = [none, some 0, some 0]
    rw [haversineDistance_self]

/-- Witness for C6: with no latitude or longitude channel at all, the series
entry over the single time sample is null. -/
theorem computeDistanceToHomeSeries_spec_witness :
    (computeDistanceToHomeSeries ⟨[(0 : ℝ)], [], [], [], none, none, none⟩).get? 0
      = some none :=
  computeDistanceToHomeSeries_spec.2.2.1 ⟨[(0 : ℝ)], [], [], [], none, none, none⟩ 0
    (by simp) rfl

/- ===== Claim C7 helper lemmas ===== -/

/-- One degree of longitude on the equator: the code computes exactly
`6371000 · π / 180` meters. -/
theorem haversineDistance_zero_one :
    haversineDistance 0 0 0 1 = 6371000 * Real.pi / 180 := by
  have hpi := Real.pi_pos
  have hθ1 : (0 : ℝ) < Real.pi / 360 := by positivity
  have hθ2 : Real.pi / 360 < Real.pi / 2 := by linarith
  have hsin : 0 < Real.sin (Real.pi / 360) :=
    Real.sin_pos_of_pos_of_lt_pi hθ1 (by linarith)
  have hcos : 0 < Real.cos (Real.pi / 360) :=
    Real.cos_pos_of_mem_Ioo ⟨by linarith, hθ2⟩
  have h1 : toRad (0 - 0) / 2 = 0 := by rw [toRad]; ring
  have h2 : toRad (1 - 0) / 2 = Real.pi / 360 := by rw [toRad]; ring
  have h3 : toRad (0 : ℝ) = 0 := by rw [toRad]; ring
  have key : haversineDistance 0 0 0 1
      = 6371000 * (2 * atan2
          (Real.sqrt (Real.sin (toRad (0 - 0) / 2) * Real.sin (toRad (0 - 0) / 2) +
            Real.cos (toRad 0) * Real.cos (toRad 0) *
            Real.sin (toRad (1 - 0) / 2) * Real.sin (toRad (1 - 0) / 2)))
          (Real.sqrt (1 - (Real.sin (toRad (0 - 0) / 2) * Real.sin (toRad (0 - 0) / 2) +
            Real.cos (toRad 0) * Real.cos (toRad 0) *
            Real.sin (toRad (1 - 0) / 2) * Real.sin (toRad (1 - 0) / 2))))) := rfl
  rw [key, h1, h2, h3]
  simp only [Real.sin_zero, Real.cos_zero, zero_mul, one_mul, zero_add, mul_zero]
  have h1ms : 1 - Real.sin (Real.pi / 360) * Real.sin (Real.pi / 360)
      = Real.cos (Real.pi / 360) * Real.cos (Real.pi / 360) := by
    have h := Real.sin_sq_add_cos_sq (Real.pi / 360)
    ring_nf at h ⊢
    linarith
  have hs1 : Real.sqrt (Real.sin (Real.pi / 360) * Real.sin (Real.pi / 360))
      = Real.sin (Real.pi / 360) := Real.sqrt_mul_self hsin.le
  have hs2 : Real.sqrt (1 - Real.sin (Real.pi / 360) * Real.sin (Real.pi / 360))
      = Real.cos (Real.pi / 360) := by
    rw [h1ms]
    exact Real.sqrt_mul_self hcos.le
  rw [hs1, hs2]
  have hat : atan2 (Real.sin (Real.pi / 360)) (Real.cos (Real.pi / 360))
      = Real.pi / 360 := by
    rw [atan2, if_pos hcos, ← Real.tan_eq_sin_div_cos]
    exact Real.arctan_tan (by linarith) hθ2
  rw [hat]
  ring

/- ===== Claim C7 ===== -/

/-- C7: `haversineDistance` implements exactly the haversine formula of the
spec with Earth radius 6,371,000 m; the distance from any point to itself is
exactly 0; and the distance from (0,0) to (0,1) — which the code evaluates to
`6371000·π/180` — is within 1% of 111,195 m. -/
theorem haversineDistance_props :
    (∀ lat1 lon1 lat2 lon2 : ℝ,
        haversineDistance lat1 lon1 lat2 lon2 = haversineSpecFormula lat1 lon1 lat2 lon2)
    ∧ (∀ lat lon : ℝ, haversineDistance lat lon lat lon = 0)
    ∧ |haversineDistance 0 0 0 1 - 111195| ≤ 111195 / 100 := by
  refine ⟨?_, haversineDistance_self, ?_⟩
  · intro lat1 lon1 lat2 lon2
    have ha : Real.sin (toRad (lat2 - lat1) / 2) * Real.sin (toRad (lat2 - lat1) / 2) +
        Real.cos (toRad lat1) * Real.cos (toRad lat2) *
        Real.sin (toRad (lon2 - lon1) / 2) * Real.sin (toRad (lon2 - lon1) / 2)
        = Real.sin (toRad (lat2 - lat1) / 2) ^ 2 +
          Real.cos (toRad lat1) * Real.cos (toRad lat2) *
          Real.sin (toRad (lon2 - lon1) / 2) ^ 2 := by
      ring
    simp only [haversineDistance, haversineSpecFormula]
    rw [ha]
    ring
  · rw [haversineDistance_zero_one, abs_le]
    constructor
    · have h := Real.pi_gt_d2
      norm_num at h ⊢
      linarith
    · have h := Real.pi_lt_d2
      norm_num at h ⊢
      linarith
